import Mathlib

/-
Verification of the reply decoder in zktraffic/base/server_message.py.

The decoder's own logic (ServerMessageType, ServerMessage.from_payload,
handler_for, and the variant with_params overrides) is embedded faithfully
from server_message.py.  The primitive byte readers (zktraffic/base/util.py)
and the opcode / sentinel constants (zktraffic/base/zookeeper.py) are not
part of the decoder source; they are modelled from the spec where marked.
-/

set_option maxRecDepth 4000

/-- Byte buffers are lists of byte values (each taken mod 256 when read). -/
abbrev Bytes := List Nat

/-- Decode failures.  server_message.py raises `DeserializationError(msg)`
for every failure it produces itself; the primitive readers additionally
raise `StringTooLong` (a bounds failure on a length-prefixed string), which
the variant decoders catch internally. -/
inductive DecodeError where
  | deserializationError (msg : String)
  | stringTooLong
deriving DecidableEq

/-- True exactly on the `DeserializationError` kind. -/
def DecodeError.isDeserializationError : DecodeError → Bool
  | .deserializationError _ => true
  | .stringTooLong => false

/-- Byte at index `i` (reads past the end are bounds failures in the
readers, which always check length first; the default is never observed). -/
def byteAt (data : Bytes) (i : Nat) : Nat := (data.getD i 0) % 256

/-- Big-endian unsigned read of `k` bytes starting at `offset`. -/
def readBE (data : Bytes) (offset k : Nat) : Nat :=
  (List.range k).foldl (fun acc j => acc * 256 + byteAt data (offset + j)) 0

/-- Two's-complement reinterpretation of a `w`-bit unsigned value. -/
def toSigned (w u : Nat) : Int :=
  if u < 2 ^ (w - 1) then (u : Int) else (u : Int) - 2 ^ w

/-- Modelled from the spec: `util.read_number`, the fixed-width 32-bit
signed big-endian integer reader; takes (buffer, offset), returns
(value, new offset), fails on out-of-bounds. -/
def read_number (data : Bytes) (offset : Nat) : Except DecodeError (Int × Nat) :=
  if offset + 4 ≤ data.length then
    .ok (toSigned 32 (readBE data offset 4), offset + 4)
  else
    .error (.deserializationError "not enough bytes to read an int")

/-- Modelled from the spec: `util.read_long`, the fixed-width 64-bit signed
big-endian integer reader. -/
def read_long (data : Bytes) (offset : Nat) : Except DecodeError (Int × Nat) :=
  if offset + 8 ≤ data.length then
    .ok (toSigned 64 (readBE data offset 8), offset + 8)
  else
    .error (.deserializationError "not enough bytes to read a long")

/-- Modelled from the spec: `util.read_bool`, the one-byte boolean reader. -/
def read_bool (data : Bytes) (offset : Nat) : Except DecodeError (Bool × Nat) :=
  if offset + 1 ≤ data.length then
    .ok (byteAt data offset ≠ 0, offset + 1)
  else
    .error (.deserializationError "not enough bytes to read a bool")

/-- Modelled from the spec: the configurable maximum length bound enforced
by the length-prefixed string reader. -/
def maxStrLen : Nat := 1024

/-- Bytes rendered as a string (one character per byte). -/
def bytesToString (bs : Bytes) : String :=
  String.mk (bs.map (fun b => Char.ofNat (b % 256)))

/-- Modelled from the spec: `util.read_string`, the length-prefixed string
reader.  It reads a 4-byte signed length; a length exceeding the configured
maximum bound fails with `StringTooLong` (the bounds check precedes any
read of the payload bytes); otherwise a malformed or out-of-bounds
encoding is a deserialization failure. -/
def read_string (data : Bytes) (offset : Nat) : Except DecodeError (String × Nat) :=
  match read_number data offset with
  | .error e => .error e
  | .ok (len, o1) =>
    if len > (maxStrLen : Int) then
      .error .stringTooLong
    else if len < 0 then
      .error (.deserializationError "negative string length")
    else if o1 + len.toNat ≤ data.length then
      .ok (bytesToString ((data.drop o1).take len.toNat), o1 + len.toNat)
    else
      .error (.deserializationError "not enough bytes to read a string")

/-- Modelled from the spec: `util.read_buffer`, the length-prefixed opaque
buffer reader. -/
def read_buffer (data : Bytes) (offset : Nat) : Except DecodeError (Bytes × Nat) :=
  match read_number data offset with
  | .error e => .error e
  | .ok (len, o1) =>
    if len < 0 then
      .error (.deserializationError "negative buffer length")
    else if o1 + len.toNat ≤ data.length then
      .ok ((data.drop o1).take len.toNat, o1 + len.toNat)
    else
      .error (.deserializationError "not enough bytes to read a buffer")

/-- Modelled from the spec: `util.read_reply_header` decodes the standard
reply header — transaction id (32-bit), server transaction id (64-bit),
error code (32-bit). -/
def read_reply_header (data : Bytes) (offset : Nat) :
    Except DecodeError ((Int × Int × Int) × Nat) :=
  match read_number data offset with
  | .error e => .error e
  | .ok (xid, o1) =>
    match read_long data o1 with
    | .error e => .error e
    | .ok (zxid, o2) =>
      match read_number data o2 with
      | .error e => .error e
      | .ok (err, o3) => .ok ((xid, zxid, err), o3)

/-- Modelled from the spec: `util.read_int_int` reads two 32-bit ints. -/
def read_int_int (data : Bytes) (offset : Nat) :
    Except DecodeError ((Int × Int) × Nat) :=
  match read_number data offset with
  | .error e => .error e
  | .ok (a, o1) =>
    match read_number data o1 with
    | .error e => .error e
    | .ok (b, o2) => .ok ((a, b), o2)

/-- Modelled from the spec: `util.read_int_int_long` reads two 32-bit ints
followed by a 64-bit long. -/
def read_int_int_long (data : Bytes) (offset : Nat) :
    Except DecodeError ((Int × Int × Int) × Nat) :=
  match read_number data offset with
  | .error e => .error e
  | .ok (a, o1) =>
    match read_number data o1 with
    | .error e => .error e
    | .ok (b, o2) =>
      match read_long data o2 with
      | .error e => .error e
      | .ok (c, o3) => .ok ((a, b, c), o3)

/-- Modelled from the spec: `util.read_int_bool_int` reads a 32-bit int, a
boolean, and a 32-bit int. -/
def read_int_bool_int (data : Bytes) (offset : Nat) :
    Except DecodeError ((Int × Bool × Int) × Nat) :=
  match read_number data offset with
  | .error e => .error e
  | .ok (a, o1) =>
    match read_bool data o1 with
    | .error e => .error e
    | .ok (b, o2) =>
      match read_number data o2 with
      | .error e => .error e
      | .ok (c, o3) => .ok ((a, b, c), o3)

/-- Modelled from the spec: `INT_STRUCT.size`, the width of the 4-byte
length prefix. -/
def INT_STRUCT_size : Nat := 4

/-- Modelled from the spec: the reserved transaction-id sentinel for
server-pushed watch events (zookeeper.WATCH_XID). -/
def WATCH_XID : Int := -1

/-- Modelled from the spec: the reserved transaction-id sentinel for
keepalive (ping) exchanges (zookeeper.PING_XID). -/
def PING_XID : Int := -2

/-- Modelled from the spec: the fixed external operation-code enumeration
(zookeeper.OpCodes) for the opcodes used by server_message.py. -/
def OpCodes.CONNECT : Int := 0
def OpCodes.CREATE : Int := 1
def OpCodes.DELETE : Int := 2
def OpCodes.EXISTS : Int := 3
def OpCodes.GETDATA : Int := 4
def OpCodes.SETDATA : Int := 5
def OpCodes.GETCHILDREN : Int := 8
def OpCodes.SYNC : Int := 9
def OpCodes.PING : Int := 11
def OpCodes.GETCHILDREN2 : Int := 12
def OpCodes.MULTI : Int := 14
def OpCodes.CREATE2 : Int := 15
def OpCodes.SETAUTH : Int := 100
def OpCodes.SETWATCHES : Int := 101

/-- Modelled from the spec: `zookeeper.MultiHeader`, the sub-operation
header record carried by a composite (multi) reply. -/
structure MultiHeader where
  opcode : Int
  done : Bool
  err : Int
deriving DecidableEq

/-- The concrete ServerMessage subclasses of server_message.py, used as
registry values and dispatch tags (the classes themselves in Python). -/
inductive HandlerTag where
  | watchEvent
  | connectReply
  | pingReply
  | authReply
  | getDataReply
  | existsReply
  | syncReply
  | setDataReply
  | deleteReply
  | getChildrenReply
  | getChildren2Reply
  | createReply
  | create2Reply
  | setWatchesReply
  | multiReply
deriving DecidableEq

/-- Variant-specific extra fields, one constructor per concrete class. -/
inductive Variant where
  | watchEvent (event_type state : Int)
  | connectReply (protocol timeout session : Int) (passwd : Bytes) (readonly : Bool)
  | pingReply
  | authReply
  | getDataReply
  | existsReply
  | syncReply
  | setDataReply
  | deleteReply
  | getChildrenReply (count : Int)
  | getChildren2Reply (count : Int)
  | createReply
  | create2Reply
  | setWatchesReply
  | multiReply (first_header : MultiHeader)
deriving DecidableEq

/-- A decoded message: the ServerMessage base fields (server_message.py
lines 60-71) plus the variant-specific fields.  The timestamp and auth
slots are assigned by the caller after construction and are not part of
decoding, so they are omitted. -/
structure ServerMsg where
  xid : Int
  zxid : Int
  error : Int
  path : String
  client : String
  server : String
  variant : Variant
deriving DecidableEq

/-- The correlation table `requests_xids`: a dict mapping a pending
request's transaction id to that request's opcode.  Modelled as an
association list; dict semantics (one binding per key) correspond to
lookups, and removal removes the key entirely. -/
abbrev Table := List (Int × Int)

/-- Dict lookup: first binding of the key, if any. -/
def dictFind {β : Type} : List (Int × β) → Int → Option β
  | [], _ => none
  | (k, v) :: rest, x => if k = x then some v else dictFind rest x

/-- Dict key removal. -/
def dictRemove {β : Type} : List (Int × β) → Int → List (Int × β)
  | [], _ => []
  | (k, v) :: rest, x =>
    if k = x then dictRemove rest x else (k, v) :: dictRemove rest x

/-- Python's `dict.pop(x, None)`: return the binding (if any) and the dict
without the key. -/
def dictPop (t : Table) (x : Int) : Option Int × Table :=
  (dictFind t x, dictRemove t x)

/-- ServerMessageType.__new__ (server_message.py lines 46-53): registering
a class whose OPCODE is already a key of TYPES raises
`ValueError("Duplicate class/opcode name: %s" % obj.OPCODE)`; a class with
OPCODE None is not registered.  (None is never a key of TYPES, so checking
the duplicate condition only for a present OPCODE is equivalent to the
source's order of checks.) -/
def ServerMessageType.register (types : List (Int × HandlerTag))
    (opcode : Option Int) (tag : HandlerTag) :
    Except String (List (Int × HandlerTag)) :=
  match opcode with
  | some op =>
    if (dictFind types op).isSome then
      .error ("Duplicate class/opcode name: " ++ toString op)
    else
      .ok (types ++ [(op, tag)])
  | none => .ok types

/-- The concrete ServerMessage subclasses in declaration order, each with
its OPCODE class attribute (server_message.py lines 140-299).  WatchEvent
declares OPCODE None and is therefore never registered. -/
def declaredMessageClasses : List (Option Int × HandlerTag) :=
  [ (none, .watchEvent),
    (some OpCodes.CONNECT, .connectReply),
    (some OpCodes.PING, .pingReply),
    (some OpCodes.SETAUTH, .authReply),
    (some OpCodes.GETDATA, .getDataReply),
    (some OpCodes.EXISTS, .existsReply),
    (some OpCodes.SYNC, .syncReply),
    (some OpCodes.SETDATA, .setDataReply),
    (some OpCodes.DELETE, .deleteReply),
    (some OpCodes.GETCHILDREN, .getChildrenReply),
    (some OpCodes.GETCHILDREN2, .getChildren2Reply),
    (some OpCodes.CREATE, .createReply),
    (some OpCodes.CREATE2, .create2Reply),
    (some OpCodes.SETWATCHES, .setWatchesReply),
    (some OpCodes.MULTI, .multiReply) ]

/-- Building ServerMessageType.TYPES by registering every declared class
in order; a duplicate opcode aborts class creation (module import). -/
def ServerMessageType.buildTYPES : Except String (List (Int × HandlerTag)) :=
  declaredMessageClasses.foldlM
    (fun types ot => ServerMessageType.register types ot.1 ot.2) []

/-- ServerMessageType.TYPES, the opcode registry as actually built when
the module loads (the build succeeds; see the registry theorems). -/
def ServerMessageType.TYPES : List (Int × HandlerTag) :=
  match ServerMessageType.buildTYPES with
  | .ok l => l
  | .error _ => []

/-- ServerMessageType.get (server_message.py lines 55-57):
`cls.TYPES.get(key, default)` with default None.  None is never a key of
TYPES, so `get(None)` always returns the default. -/
def ServerMessageType.get (key : Option Int) : Option HandlerTag :=
  match key with
  | none => none
  | some op => dictFind ServerMessageType.TYPES op

/-- WatchEvent.EVENT_TYPES (server_message.py lines 157-163): a defaultdict
with default "UnknownWatchEvent". -/
def WatchEvent.EVENT_TYPES (event_type : Int) : String :=
  if event_type = -1 then "None"
  else if event_type = 1 then "NodeCreated"
  else if event_type = 2 then "NodeDeleted"
  else if event_type = 3 then "NodeDataChanged"
  else if event_type = 4 then "NodeChildrenChanged"
  else "UnknownWatchEvent"

/-- The Python class name of a message, per its variant. -/
def Variant.className : Variant → String
  | .watchEvent .. => "WatchEvent"
  | .connectReply .. => "ConnectReply"
  | .pingReply => "PingReply"
  | .authReply => "AuthReply"
  | .getDataReply => "GetDataReply"
  | .existsReply => "ExistsReply"
  | .syncReply => "SyncReply"
  | .setDataReply => "SetDataReply"
  | .deleteReply => "DeleteReply"
  | .getChildrenReply _ => "GetChildrenReply"
  | .getChildren2Reply _ => "GetChildren2Reply"
  | .createReply => "CreateReply"
  | .create2Reply => "Create2Reply"
  | .setWatchesReply => "SetWatchesReply"
  | .multiReply _ => "MultiReply"

/-- ServerMessage.name (server_message.py lines 76-78): the class name,
prefixed with "Failed" when the error code is nonzero. -/
def ServerMsg.baseName (m : ServerMsg) : String :=
  (if m.error = 0 then "" else "Failed") ++ m.variant.className

/-- The display name, with the overrides of WatchEvent.name (lines
165-167) and ConnectReply.name (lines 203-205). -/
def ServerMsg.name (m : ServerMsg) : String :=
  match m.variant with
  | .watchEvent event_type _ => WatchEvent.EVENT_TYPES event_type
  | .connectReply _ timeout _ _ _ =>
    if timeout > 0 then m.baseName else "SessionExpiration"
  | _ => m.baseName

/-- ServerMessage.with_params (server_message.py lines 84-102), the base
implementation used by all ack-only and read replies: no extra parsing,
path is empty.  `cls` is the constructed variant. -/
def ServerMessage.with_params (cls : Variant) (xid zxid error : Int)
    (_data : Bytes) (_offset : Nat) (client server : String) :
    Except DecodeError ServerMsg :=
  .ok ⟨xid, zxid, error, "", client, server, cls⟩

/-- WatchEvent.with_params (server_message.py lines 148-155): reads
event_type and state, then the path, substituting "path-too-long" when the
string reader fails its bounds check; WatchEvent.__init__ (lines 143-146)
forces xid = -1, zxid = -1, error = 0. -/
def WatchEvent.with_params (_xid _zxid _error : Int) (data : Bytes)
    (offset : Nat) (client server : String) : Except DecodeError ServerMsg :=
  match read_int_int data offset with
  | .error e => .error e
  | .ok ((event_type, state), o1) =>
    match read_string data o1 with
    | .ok (path, _) =>
      .ok ⟨-1, -1, 0, path, client, server, .watchEvent event_type state⟩
    | .error .stringTooLong =>
      .ok ⟨-1, -1, 0, "path-too-long", client, server, .watchEvent event_type state⟩
    | .error e => .error e

/-- ConnectReply.with_params (server_message.py lines 190-201): rewinds the
offset to INT_STRUCT.size (right after the reply size), then reads
protocol, timeout, session, passwd, readonly; ConnectReply.__init__
(lines 181-188) forces xid = 0, zxid = -1, error = 0, path = "". -/
def ConnectReply.with_params (_xid _zxid _error : Int) (data : Bytes)
    (_offset : Nat) (client server : String) : Except DecodeError ServerMsg :=
  match read_int_int_long data INT_STRUCT_size with
  | .error e => .error e
  | .ok ((protocol, timeout, session), o1) =>
    match read_buffer data o1 with
    | .error e => .error e
    | .ok (passwd, o2) =>
      match read_bool data o2 with
      | .error e => .error e
      | .ok (readonly, _) =>
        .ok ⟨0, -1, 0, "", client, server,
             .connectReply protocol timeout session passwd readonly⟩

/-- GetChildrenReply.with_params (server_message.py lines 247-250): the
count is read only when the error code is zero, else it defaults to 0 with
no read.  `cls` builds the variant (GetChildrenReply or its subclass
GetChildren2Reply, which inherits this method). -/
def GetChildrenReply.with_params (cls : Int → Variant) (xid zxid error : Int)
    (data : Bytes) (offset : Nat) (client server : String) :
    Except DecodeError ServerMsg :=
  if error = 0 then
    match read_number data offset with
    | .error e => .error e
    | .ok (count, _) => .ok ⟨xid, zxid, error, "", client, server, cls count⟩
  else
    .ok ⟨xid, zxid, error, "", client, server, cls 0⟩

/-- CreateReply.with_params (server_message.py lines 264-270): the path is
read only when the error code is zero, else it defaults to "" with no
read; a string-bounds failure substitutes "path-too-long".  `cls` is the
constructed variant (CreateReply or its subclass Create2Reply). -/
def CreateReply.with_params (cls : Variant) (xid zxid error : Int)
    (data : Bytes) (offset : Nat) (client server : String) :
    Except DecodeError ServerMsg :=
  if error = 0 then
    match read_string data offset with
    | .ok (path, _) => .ok ⟨xid, zxid, error, path, client, server, cls⟩
    | .error .stringTooLong =>
      .ok ⟨xid, zxid, error, "path-too-long", client, server, cls⟩
    | .error e => .error e
  else
    .ok ⟨xid, zxid, error, "", client, server, cls⟩

/-- MultiReply.with_params (server_message.py lines 292-295): reads the
first sub-operation header only. -/
def MultiReply.with_params (xid zxid error : Int) (data : Bytes)
    (offset : Nat) (client server : String) : Except DecodeError ServerMsg :=
  match read_int_bool_int data offset with
  | .error e => .error e
  | .ok ((first_opcode, done, err), _) =>
    .ok ⟨xid, zxid, error, "", client, server,
         .multiReply ⟨first_opcode, done, err⟩⟩

/-- Virtual dispatch `handler.with_params(...)`: each class tag selects its
with_params override (subclasses without an override inherit the nearest
one, with `cls` bound to the subclass). -/
def dispatch (tag : HandlerTag) (xid zxid error : Int) (data : Bytes)
    (offset : Nat) (client server : String) : Except DecodeError ServerMsg :=
  match tag with
  | .watchEvent => WatchEvent.with_params xid zxid error data offset client server
  | .connectReply => ConnectReply.with_params xid zxid error data offset client server
  | .pingReply => ServerMessage.with_params .pingReply xid zxid error data offset client server
  | .authReply => ServerMessage.with_params .authReply xid zxid error data offset client server
  | .getDataReply => ServerMessage.with_params .getDataReply xid zxid error data offset client server
  | .existsReply => ServerMessage.with_params .existsReply xid zxid error data offset client server
  | .syncReply => ServerMessage.with_params .syncReply xid zxid error data offset client server
  | .setDataReply => ServerMessage.with_params .setDataReply xid zxid error data offset client server
  | .deleteReply => ServerMessage.with_params .deleteReply xid zxid error data offset client server
  | .getChildrenReply => GetChildrenReply.with_params Variant.getChildrenReply xid zxid error data offset client server
  | .getChildren2Reply => GetChildrenReply.with_params Variant.getChildren2Reply xid zxid error data offset client server
  | .createReply => CreateReply.with_params .createReply xid zxid error data offset client server
  | .create2Reply => CreateReply.with_params .create2Reply xid zxid error data offset client server
  | .setWatchesReply => ServerMessage.with_params .setWatchesReply xid zxid error data offset client server
  | .multiReply => MultiReply.with_params xid zxid error data offset client server

/-- ServerMessage.handler_for (server_message.py lines 120-133): the watch
and ping sentinels resolve without touching the correlation table; any
other xid is popped from the table and its recorded opcode looked up in
the registry.  Returns the handler (if any) and the resulting table. -/
def ServerMessage.handler_for (xid : Int) (requests_xids : Table) :
    Option HandlerTag × Table :=
  if xid = WATCH_XID then
    (some .watchEvent, requests_xids)
  else if xid = PING_XID then
    (some .pingReply, requests_xids)
  else
    let popped := dictPop requests_xids xid
    (ServerMessageType.get popped.1, popped.2)

/-- ServerMessage.from_payload (server_message.py lines 104-118): reads
the length prefix (failing on a non-positive size), the reply header, and
dispatches to the resolved handler; failing with "No handler for xid" when
resolution misses.  Returns the decode result together with the resulting
correlation table (the table the caller's dict holds after the call,
whether the call returned or raised). -/
def ServerMessage.from_payload (data : Bytes) (client server : String)
    (requests_xids : Table) : Except DecodeError ServerMsg × Table :=
  match read_number data 0 with
  | .error e => (.error e, requests_xids)
  | .ok (reply_size, offset) =>
    if reply_size ≤ 0 then
      (.error (.deserializationError ("Bad reply length: " ++ toString reply_size)),
       requests_xids)
    else
      match read_reply_header data offset with
      | .error e => (.error e, requests_xids)
      | .ok ((xid, zxid, err), offset2) =>
        match ServerMessage.handler_for xid requests_xids with
        | (some handler, t2) =>
          (dispatch handler xid zxid err data offset2 client server, t2)
        | (none, t2) =>
          (.error (.deserializationError ("No handler for xid=" ++ toString xid)), t2)

/-- Lookup after key removal: the removed key is gone, others unchanged. -/
theorem dictFind_dictRemove {β : Type} (t : List (Int × β)) (x y : Int) :
    dictFind (dictRemove t x) y = if y = x then none else dictFind t y := by
  induction t with
  | nil =>
    simp only [dictRemove, dictFind]
    split <;> rfl
  | cons p rest ih =>
    obtain ⟨k, v⟩ := p
    simp only [dictRemove]
    by_cases hk : k = x
    · rw [if_pos hk, ih]
      by_cases hyx : y = x
      · rw [if_pos hyx, if_pos hyx]
      · rw [if_neg hyx, if_neg hyx]
        simp only [dictFind]
        rw [if_neg (show ¬ k = y by omega)]
    · rw [if_neg hk]
      simp only [dictFind]
      by_cases hky : k = y
      · rw [if_pos hky, if_neg (show ¬ y = x by omega), if_pos hky]
      · rw [if_neg hky, ih]
        by_cases hyx : y = x
        · rw [if_pos hyx, if_pos hyx]
        · rw [if_neg hyx, if_neg hyx, if_neg hky]

/-- Handler resolution for a non-sentinel xid: pop from the table, then
look the popped opcode up in the registry. -/
theorem handler_for_nonsentinel (xid : Int) (t : Table)
    (hw : xid ≠ WATCH_XID) (hp : xid ≠ PING_XID) :
    ServerMessage.handler_for xid t =
      (ServerMessageType.get (dictFind t xid), dictRemove t xid) := by
  unfold ServerMessage.handler_for dictPop
  rw [if_neg hw, if_neg hp]

/-- Once the envelope and header reads succeed with a positive size,
from_payload is exactly handler resolution followed by dispatch. -/
theorem from_payload_resolves (data : Bytes) (c s : String) (t : Table)
    (n : Int) (o1 : Nat) (xid zxid err : Int) (o2 : Nat)
    (h1 : read_number data 0 = .ok (n, o1)) (hn : 0 < n)
    (h2 : read_reply_header data o1 = .ok ((xid, zxid, err), o2)) :
    ServerMessage.from_payload data c s t =
      (match ServerMessage.handler_for xid t with
       | (some handler, t2) => (dispatch handler xid zxid err data o2 c s, t2)
       | (none, t2) =>
         (.error (.deserializationError ("No handler for xid=" ++ toString xid)), t2)) := by
  unfold ServerMessage.from_payload
  rw [h1]
  simp only [if_neg (show ¬ n ≤ 0 by omega)]
  rw [h2]

/-- C1: for a decode whose transaction id is not a reserved sentinel, a
successful match removes that transaction id's entry from the correlation
table, so decoding the identical buffer a second time against the
resulting table fails with the unresolved-request failure
(DeserializationError "No handler for xid=...") instead of yielding a
second Message. -/
theorem xid_consumed_exactly_once (data : Bytes) (c s : String) (t : Table)
    (n : Int) (o1 : Nat) (xid zxid err : Int) (o2 : Nat)
    (m : ServerMsg) (t' : Table)
    (h1 : read_number data 0 = .ok (n, o1)) (hn : 0 < n)
    (h2 : read_reply_header data o1 = .ok ((xid, zxid, err), o2))
    (hw : xid ≠ WATCH_XID) (hp : xid ≠ PING_XID)
    (hok : ServerMessage.from_payload data c s t = (.ok m, t')) :
    dictFind t' xid = none ∧
    (ServerMessage.from_payload data c s t').1 =
      .error (.deserializationError ("No handler for xid=" ++ toString xid)) := by
  have hfp := from_payload_resolves data c s t n o1 xid zxid err o2 h1 hn h2
  rw [handler_for_nonsentinel xid t hw hp] at hfp
  have ht' : t' = dictRemove t xid := by
    cases hg : ServerMessageType.get (dictFind t xid) with
    | none =>
      rw [hg] at hfp
      rw [hok] at hfp
      exact absurd (congrArg Prod.fst hfp) (by simp)
    | some handler =>
      rw [hg] at hfp
      rw [hok] at hfp
      exact congrArg Prod.snd hfp
  have hgone : dictFind t' xid = none := by
    rw [ht', dictFind_dictRemove, if_pos rfl]
  refine ⟨hgone, ?_⟩
  have hfp2 := from_payload_resolves data c s t' n o1 xid zxid err o2 h1 hn h2
  rw [handler_for_nonsentinel xid t' hw hp, hgone] at hfp2
  rw [hfp2]
  rfl

/-- C10: when a non-sentinel transaction id is present in the correlation
table but its recorded opcode has no registered variant, the decode fails
with the no-handler failure and yet the transaction id's entry has been
removed from the table: the table is mutated even though no Message is
produced. -/
theorem table_mutated_on_failed_lookup (data : Bytes) (c s : String)
    (t : Table) (n : Int) (o1 : Nat) (xid zxid err : Int) (o2 : Nat) (op : Int)
    (h1 : read_number data 0 = .ok (n, o1)) (hn : 0 < n)
    (h2 : read_reply_header data o1 = .ok ((xid, zxid, err), o2))
    (hw : xid ≠ WATCH_XID) (hp : xid ≠ PING_XID)
    (hfind : dictFind t xid = some op)
    (hmiss : dictFind ServerMessageType.TYPES op = none) :
    ServerMessage.from_payload data c s t =
      (.error (.deserializationError ("No handler for xid=" ++ toString xid)),
       dictRemove t xid) ∧
    dictFind (dictRemove t xid) xid = none := by
  have hfp := from_payload_resolves data c s t n o1 xid zxid err o2 h1 hn h2
  rw [handler_for_nonsentinel xid t hw hp, hfind] at hfp
  have hg : ServerMessageType.get (some op) = none := hmiss
  rw [hg] at hfp
  exact ⟨hfp, by rw [dictFind_dictRemove, if_pos rfl]⟩

/-- C9: decoding is deterministic and depends only on the buffer, the
endpoints and the observable contents of the correlation table: decode
against two pointwise-equal tables gives the same result (success or
failure) and pointwise-equal resulting tables. -/
theorem decode_deterministic (data : Bytes) (c s : String) (t1 t2 : Table)
    (h : ∀ x, dictFind t1 x = dictFind t2 x) :
    (ServerMessage.from_payload data c s t1).1 =
      (ServerMessage.from_payload data c s t2).1 ∧
    ∀ x, dictFind (ServerMessage.from_payload data c s t1).2 x =
         dictFind (ServerMessage.from_payload data c s t2).2 x := by
  unfold ServerMessage.from_payload
  cases hr : read_number data 0 with
  | error e => exact ⟨rfl, h⟩
  | ok v =>
    obtain ⟨n, off⟩ := v
    by_cases hn : n ≤ 0
    · simp only [if_pos hn]
      exact ⟨trivial, h⟩
    · simp only [if_neg hn]
      cases hh : read_reply_header data off with
      | error e => exact ⟨rfl, h⟩
      | ok w =>
        obtain ⟨⟨xid, zxid, err⟩, o2⟩ := w
        by_cases hw : xid = WATCH_XID
        · simp only [ServerMessage.handler_for, if_pos hw]
          exact ⟨trivial, h⟩
        · by_cases hp : xid = PING_XID
          · simp only [ServerMessage.handler_for, if_neg hw, if_pos hp]
            exact ⟨trivial, h⟩
          · simp only [ServerMessage.handler_for, if_neg hw, if_neg hp, dictPop]
            rw [h xid]
            cases hg : ServerMessageType.get (dictFind t2 xid) with
            | none =>
              refine ⟨rfl, fun x => ?_⟩
              rw [dictFind_dictRemove, dictFind_dictRemove]
              by_cases hx : x = xid
              · rw [if_pos hx, if_pos hx]
              · rw [if_neg hx, if_neg hx, h x]
            | some handler =>
              refine ⟨rfl, fun x => ?_⟩
              rw [dictFind_dictRemove, dictFind_dictRemove]
              by_cases hx : x = xid
              · rw [if_pos hx, if_pos hx]
              · rw [if_neg hx, if_neg hx, h x]

/-- A create-reply buffer: size 20, xid 5, zxid 9, error 0, then the
string "/foo" (the worked example of the spec, table entry 5 → CREATE). -/
def sampleCreateBuf : Bytes :=
  [0,0,0,20, 0,0,0,5, 0,0,0,0,0,0,0,9, 0,0,0,0, 0,0,0,4, 47,102,111,111]

theorem xid_consumed_exactly_once_witness :
    dictFind ([] : Table) 5 = none ∧
    (ServerMessage.from_payload sampleCreateBuf "c" "s" []).1 =
      .error (.deserializationError ("No handler for xid=" ++ toString (5 : Int))) :=
  xid_consumed_exactly_once sampleCreateBuf "c" "s" [(5, OpCodes.CREATE)]
    20 4 5 9 0 20 ⟨5, 9, 0, "/foo", "c", "s", .createReply⟩ []
    rfl (by decide) rfl (by decide) (by decide) rfl

/-- A well-framed buffer (size 16, xid 5, zxid 0, error 0) used with a
table whose entry for xid 5 records the unregistered opcode 99. -/
def sampleMissBuf : Bytes :=
  [0,0,0,16, 0,0,0,5, 0,0,0,0,0,0,0,0, 0,0,0,0]

theorem table_mutated_on_failed_lookup_witness :
    ServerMessage.from_payload sampleMissBuf "c" "s" [(5, 99)] =
      (.error (.deserializationError ("No handler for xid=" ++ toString (5 : Int))),
       dictRemove ([(5, 99)] : Table) 5) ∧
    dictFind (dictRemove ([(5, 99)] : Table) 5) 5 = none :=
  table_mutated_on_failed_lookup sampleMissBuf "c" "s" [(5, 99)]
    16 4 5 0 0 20 99 rfl (by decide) rfl (by decide) (by decide) rfl rfl

theorem decode_deterministic_witness :
    (ServerMessage.from_payload sampleCreateBuf "c" "s" [(5, OpCodes.CREATE)]).1 =
      (ServerMessage.from_payload sampleCreateBuf "c" "s" [(5, OpCodes.CREATE)]).1 ∧
    dictFind (ServerMessage.from_payload sampleCreateBuf "c" "s" [(5, OpCodes.CREATE)]).2 5 =
      dictFind (ServerMessage.from_payload sampleCreateBuf "c" "s" [(5, OpCodes.CREATE)]).2 5 :=
  ⟨(decode_deterministic sampleCreateBuf "c" "s" [(5, OpCodes.CREATE)]
      [(5, OpCodes.CREATE)] (fun _ => rfl)).1,
   (decode_deterministic sampleCreateBuf "c" "s" [(5, OpCodes.CREATE)]
      [(5, OpCodes.CREATE)] (fun _ => rfl)).2 5⟩

/-- C2 (amended): every decoded watch event carries xid -1, zxid -1 and
error 0; every decoded connection-handshake reply carries xid 0 (not the
-1 sentinel), zxid -1 and error 0 — regardless of the payload bytes. -/
theorem forced_ids_of_event_and_connect :
    (∀ (xid zxid error : Int) (data : Bytes) (offset : Nat) (c s : String)
       (m : ServerMsg),
      WatchEvent.with_params xid zxid error data offset c s = .ok m →
      m.xid = -1 ∧ m.zxid = -1 ∧ m.error = 0) ∧
    (∀ (xid zxid error : Int) (data : Bytes) (offset : Nat) (c s : String)
       (m : ServerMsg),
      ConnectReply.with_params xid zxid error data offset c s = .ok m →
      m.xid = 0 ∧ m.zxid = -1 ∧ m.error = 0) := by
  constructor
  · intro xid zxid error data offset c s m h
    unfold WatchEvent.with_params at h
    split at h
    · exact Except.noConfusion h
    · split at h
      · injection h with h2
        subst h2
        exact ⟨rfl, rfl, rfl⟩
      · injection h with h2
        subst h2
        exact ⟨rfl, rfl, rfl⟩
      · exact Except.noConfusion h
  · intro xid zxid error data offset c s m h
    unfold ConnectReply.with_params at h
    split at h
    · exact Except.noConfusion h
    · split at h
      · exact Except.noConfusion h
      · split at h
        · exact Except.noConfusion h
        · injection h with h2
          subst h2
          exact ⟨rfl, rfl, rfl⟩

/-- A watch-event payload starting at offset 0: event_type 1, state 3,
then the string "/a". -/
def sampleWatchPayload : Bytes := [0,0,0,1, 0,0,0,3, 0,0,0,2, 47,97]

/-- A connect-reply buffer: size, then (read as the reply header) xid 7,
zxid, error 0, and (re-read from offset 4 as the connect layout) protocol
7, timeout 10, session 0, empty password, readonly true. -/
def sampleConnectBuf : Bytes :=
  [0,0,0,21, 0,0,0,7, 0,0,0,10, 0,0,0,0,0,0,0,0, 0,0,0,0, 1]

/-- The message decoded from sampleConnectBuf. -/
def sampleConnectMsg : ServerMsg :=
  ⟨0, -1, 0, "", "c", "s", .connectReply 7 10 0 [] true⟩

theorem forced_ids_witness :
    ((⟨-1, -1, 0, "/a", "c", "s", .watchEvent 1 3⟩ : ServerMsg).xid = -1 ∧
     (⟨-1, -1, 0, "/a", "c", "s", .watchEvent 1 3⟩ : ServerMsg).zxid = -1 ∧
     (⟨-1, -1, 0, "/a", "c", "s", .watchEvent 1 3⟩ : ServerMsg).error = 0) ∧
    (sampleConnectMsg.xid = 0 ∧ sampleConnectMsg.zxid = -1 ∧
     sampleConnectMsg.error = 0) :=
  ⟨forced_ids_of_event_and_connect.1 9 9 9 sampleWatchPayload 0 "c" "s"
     ⟨-1, -1, 0, "/a", "c", "s", .watchEvent 1 3⟩ rfl,
   forced_ids_of_event_and_connect.2 7 42949672960 0 sampleConnectBuf 20 "c" "s"
     sampleConnectMsg rfl⟩

/-- C2 counterexample: a full decode of a connection-handshake reply
yields a message whose transaction id is 0, not the -1 sentinel the claim
asserts. -/
theorem connect_reply_xid_not_sentinel :
    (ServerMessage.from_payload sampleConnectBuf "c" "s"
       [(7, OpCodes.CONNECT)]).1 = .ok sampleConnectMsg ∧
    sampleConnectMsg.xid ≠ -1 :=
  ⟨rfl, by decide⟩

/-- C3 (amended): a buffer whose 4-byte signed length prefix is ≤ 0 makes
the decode fail with DeserializationError ("Bad reply length: ..."), the
catch-all kind, before any header or payload field is read and with the
correlation table untouched. -/
theorem nonpositive_size_rejected (data : Bytes) (c s : String) (t : Table)
    (n : Int) (o : Nat)
    (h1 : read_number data 0 = .ok (n, o)) (hn : n ≤ 0) :
    ServerMessage.from_payload data c s t =
      (.error (.deserializationError ("Bad reply length: " ++ toString n)), t) := by
  unfold ServerMessage.from_payload
  rw [h1]
  simp only [if_pos hn]

theorem nonpositive_size_rejected_witness :
    ServerMessage.from_payload [0, 0, 0, 0] "c" "s" [] =
      (.error (.deserializationError ("Bad reply length: " ++ toString (0 : Int))), []) :=
  nonpositive_size_rejected [0, 0, 0, 0] "c" "s" [] 0 4 rfl (by decide)

/-- C3 counterexample: on a zero length prefix the decode fails with the
DeserializationError catch-all kind itself ("Bad reply length: 0"), not
with an error of a kind distinct from it. -/
theorem framing_failure_is_deserialization_error :
    ServerMessage.from_payload [0, 0, 0, 0] "c" "s" [] =
      (.error (.deserializationError "Bad reply length: 0"), []) ∧
    DecodeError.isDeserializationError
      (.deserializationError "Bad reply length: 0") = true :=
  ⟨rfl, rfl⟩

/-- C4: registering a variant under an opcode already present in the
registry fails at build time with the duplicate-opcode error; the actual
registry build succeeds and holds at most one variant per opcode. -/
theorem duplicate_opcode_rejected :
    (∀ (types : List (Int × HandlerTag)) (op : Int) (tag : HandlerTag),
      (dictFind types op).isSome = true →
      ServerMessageType.register types (some op) tag =
        .error ("Duplicate class/opcode name: " ++ toString op)) ∧
    ServerMessageType.buildTYPES = .ok ServerMessageType.TYPES ∧
    (ServerMessageType.TYPES.map Prod.fst).Nodup := by
  refine ⟨?_, rfl, by decide⟩
  intro types op tag h
  simp only [ServerMessageType.register]
  rw [if_pos h]

theorem duplicate_opcode_rejected_witness :
    ServerMessageType.register [(1, HandlerTag.createReply)] (some 1)
      HandlerTag.create2Reply =
      .error ("Duplicate class/opcode name: " ++ toString (1 : Int)) :=
  duplicate_opcode_rejected.1 [(1, HandlerTag.createReply)] 1
    HandlerTag.create2Reply (by decide)

/-- C5: a children-listing reply with nonzero error code decodes count 0,
and a create reply with nonzero error code decodes path "" — in both
cases reading nothing from the payload, so the result is the same for
every buffer and offset. -/
theorem error_reply_suppresses_fields :
    (∀ (cls : Int → Variant) (xid zxid error : Int) (data data2 : Bytes)
       (offset offset2 : Nat) (c s : String), error ≠ 0 →
      GetChildrenReply.with_params cls xid zxid error data offset c s =
        .ok ⟨xid, zxid, error, "", c, s, cls 0⟩ ∧
      GetChildrenReply.with_params cls xid zxid error data offset c s =
        GetChildrenReply.with_params cls xid zxid error data2 offset2 c s) ∧
    (∀ (cls : Variant) (xid zxid error : Int) (data data2 : Bytes)
       (offset offset2 : Nat) (c s : String), error ≠ 0 →
      CreateReply.with_params cls xid zxid error data offset c s =
        .ok ⟨xid, zxid, error, "", c, s, cls⟩ ∧
      CreateReply.with_params cls xid zxid error data offset c s =
        CreateReply.with_params cls xid zxid error data2 offset2 c s) := by
  constructor
  · intro cls xid zxid error data data2 offset offset2 c s h
    unfold GetChildrenReply.with_params
    rw [if_neg h, if_neg h]
    exact ⟨rfl, rfl⟩
  · intro cls xid zxid error data data2 offset offset2 c s h
    unfold CreateReply.with_params
    rw [if_neg h, if_neg h]
    exact ⟨rfl, rfl⟩

theorem error_reply_suppresses_fields_witness :
    (GetChildrenReply.with_params Variant.getChildrenReply 5 9 (-101)
       [7, 7, 7, 7] 0 "c" "s" =
       .ok ⟨5, 9, -101, "", "c", "s", Variant.getChildrenReply 0⟩ ∧
     GetChildrenReply.with_params Variant.getChildrenReply 5 9 (-101)
       [7, 7, 7, 7] 0 "c" "s" =
       GetChildrenReply.with_params Variant.getChildrenReply 5 9 (-101) [] 3 "c" "s") ∧
    (CreateReply.with_params Variant.createReply 5 9 (-110) [7, 7, 7, 7] 0 "c" "s" =
       .ok ⟨5, 9, -110, "", "c", "s", Variant.createReply⟩ ∧
     CreateReply.with_params Variant.createReply 5 9 (-110) [7, 7, 7, 7] 0 "c" "s" =
       CreateReply.with_params Variant.createReply 5 9 (-110) [] 3 "c" "s") :=
  ⟨error_reply_suppresses_fields.1 Variant.getChildrenReply 5 9 (-101)
     [7, 7, 7, 7] [] 0 3 "c" "s" (by decide),
   error_reply_suppresses_fields.2 Variant.createReply 5 9 (-110)
     [7, 7, 7, 7] [] 0 3 "c" "s" (by decide)⟩

/-- C6: the connection-handshake decoder ignores the reply header values
and the offset it is handed (rewinding instead to right after the 4-byte
length prefix) and decodes protocol version, timeout, session id, opaque
password buffer and read-only flag, in that order. -/
theorem connect_reply_bypasses_header :
    (∀ (xid xid2 zxid zxid2 error error2 : Int) (data : Bytes)
       (offset offset2 : Nat) (c s : String),
      ConnectReply.with_params xid zxid error data offset c s =
        ConnectReply.with_params xid2 zxid2 error2 data offset2 c s) ∧
    (∀ (xid zxid error : Int) (data : Bytes) (offset : Nat) (c s : String)
       (protocol timeout session : Int) (o1 : Nat) (passwd : Bytes)
       (o2 : Nat) (readonly : Bool) (o3 : Nat),
      read_int_int_long data INT_STRUCT_size = .ok ((protocol, timeout, session), o1) →
      read_buffer data o1 = .ok (passwd, o2) →
      read_bool data o2 = .ok (readonly, o3) →
      ConnectReply.with_params xid zxid error data offset c s =
        .ok ⟨0, -1, 0, "", c, s,
             .connectReply protocol timeout session passwd readonly⟩) := by
  constructor
  · intro xid xid2 zxid zxid2 error error2 data offset offset2 c s
    rfl
  · intro xid zxid error data offset c s protocol timeout session o1 passwd o2
      readonly o3 h1 h2 h3
    simp only [ConnectReply.with_params, h1, h2, h3]

theorem connect_reply_bypasses_header_witness :
    (ConnectReply.with_params 1 2 3 sampleConnectBuf 20 "c" "s" =
       ConnectReply.with_params 4 5 6 sampleConnectBuf 0 "c" "s") ∧
    ConnectReply.with_params 1 2 3 sampleConnectBuf 20 "c" "s" =
      .ok sampleConnectMsg :=
  ⟨connect_reply_bypasses_header.1 1 4 2 5 3 6 sampleConnectBuf 20 0 "c" "s",
   connect_reply_bypasses_header.2 1 2 3 sampleConnectBuf 20 "c" "s"
     7 10 0 20 [] 24 true 25 rfl rfl rfl⟩

/-- Helper: a string whose declared length exceeds the configured maximum
fails the bounds check, with no further bytes read. -/
theorem read_string_too_long (data : Bytes) (offset : Nat) (len : Int) (o2 : Nat)
    (h : read_number data offset = .ok (len, o2))
    (hgt : (maxStrLen : Int) < len) :
    read_string data offset = .error .stringTooLong := by
  simp only [read_string, h]
  rw [if_pos hgt]

/-- C7: a string field whose declared length exceeds the configured
maximum does not abort the message: the field is replaced by the literal
"path-too-long" placeholder, the message decodes successfully, and the
bounds condition is never surfaced to the caller. -/
theorem oversized_string_replaced :
    (∀ (xid zxid error : Int) (data : Bytes) (offset : Nat) (c s : String)
       (event_type state : Int) (o1 : Nat) (len : Int) (o2 : Nat),
      read_int_int data offset = .ok ((event_type, state), o1) →
      read_number data o1 = .ok (len, o2) →
      (maxStrLen : Int) < len →
      WatchEvent.with_params xid zxid error data offset c s =
        .ok ⟨-1, -1, 0, "path-too-long", c, s, .watchEvent event_type state⟩) ∧
    (∀ (cls : Variant) (xid zxid : Int) (data : Bytes) (offset : Nat)
       (c s : String) (len : Int) (o2 : Nat),
      read_number data offset = .ok (len, o2) →
      (maxStrLen : Int) < len →
      CreateReply.with_params cls xid zxid 0 data offset c s =
        .ok ⟨xid, zxid, 0, "path-too-long", c, s, cls⟩) := by
  constructor
  · intro xid zxid error data offset c s event_type state o1 len o2 h1 h2 hgt
    have hs := read_string_too_long data o1 len o2 h2 hgt
    simp only [WatchEvent.with_params, h1, hs]
  · intro cls xid zxid data offset c s len o2 h2 hgt
    have hs := read_string_too_long data offset len o2 h2 hgt
    simp only [CreateReply.with_params, hs, if_true]

/-- A watch-event payload whose string declares length 2048 (over the
1024 bound): event_type 1, state 3, then the oversized length prefix. -/
def sampleLongStrPayload : Bytes := [0,0,0,1, 0,0,0,3, 0,0,8,0]

theorem oversized_string_replaced_witness :
    WatchEvent.with_params 9 9 9 sampleLongStrPayload 0 "c" "s" =
      .ok ⟨-1, -1, 0, "path-too-long", "c", "s", .watchEvent 1 3⟩ ∧
    CreateReply.with_params Variant.createReply 5 9 0 [0, 0, 8, 0] 0 "c" "s" =
      .ok ⟨5, 9, 0, "path-too-long", "c", "s", Variant.createReply⟩ :=
  ⟨oversized_string_replaced.1 9 9 9 sampleLongStrPayload 0 "c" "s"
     1 3 8 2048 12 rfl rfl (by decide),
   oversized_string_replaced.2 Variant.createReply 5 9 [0, 0, 8, 0] 0 "c" "s"
     2048 4 rfl (by decide)⟩

/-- C8: a connection-handshake reply with timeout ≤ 0 has display name
"SessionExpiration" regardless of its error code; with a strictly
positive timeout its display name is the default label (the class name,
"Failed"-prefixed on a nonzero error code).  The name is a pure function
of the message record. -/
theorem connect_timeout_naming (xid zxid error protocol timeout session : Int)
    (passwd : Bytes) (readonly : Bool) (path c s : String) :
    (timeout ≤ 0 →
      ServerMsg.name ⟨xid, zxid, error, path, c, s,
        .connectReply protocol timeout session passwd readonly⟩ =
        "SessionExpiration") ∧
    (0 < timeout →
      ServerMsg.name ⟨xid, zxid, error, path, c, s,
        .connectReply protocol timeout session passwd readonly⟩ =
      ServerMsg.baseName ⟨xid, zxid, error, path, c, s,
        .connectReply protocol timeout session passwd readonly⟩) := by
  constructor
  · intro h
    simp only [ServerMsg.name]
    rw [if_neg (show ¬ timeout > 0 by omega)]
  · intro h
    simp only [ServerMsg.name]
    rw [if_pos h]

theorem connect_timeout_naming_witness :
    ServerMsg.name ⟨0, -1, 0, "", "c", "s",
      .connectReply 0 0 0 [] false⟩ = "SessionExpiration" ∧
    ServerMsg.name ⟨0, -1, 0, "", "c", "s",
      .connectReply 0 10 0 [] false⟩ =
    ServerMsg.baseName ⟨0, -1, 0, "", "c", "s",
      .connectReply 0 10 0 [] false⟩ :=
  ⟨(connect_timeout_naming 0 (-1) 0 0 0 0 [] false "" "c" "s").1 (by decide),
   (connect_timeout_naming 0 (-1) 0 0 10 0 [] false "" "c" "s").2 (by decide)⟩
